import Mathlib

/-!
Verification of the GarmentCode 3D/SVG generation services and the dataset
batch driver, as a shallow embedding of the orchestration code in
`pattern_data_sim.py`, `garment_3d_service.py` and `api_garment_3d_service.py`.

The filesystem is modelled as a list of existing paths (membership =
existence); a path is a list of name components.  External collaborators
(the pattern compiler, the physics simulator, the renderer) are modelled as
oracle parameters, since the orchestration code treats their results
opaquely.
-/

/-- A filesystem path, as its list of name components. -/
abbrev FsPath := List String

/-- A filesystem: the list of paths that currently exist. -/
abbrev FS := List FsPath

/-- Predicate `startsWithPath p q`: true when `p` is an initial segment of `q`
(so the entry at `q` lives inside the directory `p`, or is `p` itself). -/
def startsWithPath : FsPath → FsPath → Bool
  | [], _ => true
  | _ :: _, [] => false
  | a :: p, b :: q => a == b && startsWithPath p q

/-- Existence check for a path in the modelled filesystem
(`Path.exists()` in the source). -/
def pathMem (fs : FS) (p : FsPath) : Bool := fs.any (fun q => q == p)

/-- Embedding of `shutil.rmtree`: removes the directory and every entry below it. -/
def rmtree (fs : FS) (dir : FsPath) : FS :=
  fs.filter (fun q => !(startsWithPath dir q))

/-- Embedding of `GarmentTo3DService.cleanup_session` (pattern_data_sim.py, lines 166-174)
and the identical `GarmentSVGService.cleanup_session`
(api_garment_3d_service.py, lines 230-239):
`session_dir = output_root / session_id; if session_dir.exists():
shutil.rmtree(session_dir)`. -/
def cleanup_session (output_root : FsPath) (fs : FS) (session_id : String) : FS :=
  let session_dir := output_root ++ [session_id]
  if pathMem fs session_dir then rmtree fs session_dir else fs

-- Basic lemmas about the path model

theorem startsWithPath_self (l : FsPath) : startsWithPath l l = true := by
  induction l with
  | nil => rfl
  | cons a t ih => simp [startsWithPath, ih]

theorem pathMem_iff (fs : FS) (p : FsPath) : pathMem fs p = true ↔ p ∈ fs := by
  induction fs with
  | nil => simp [pathMem]
  | cons q t ih =>
    simp only [pathMem, List.any_cons, Bool.or_eq_true, beq_iff_eq] at *
    constructor
    · rintro (h | h)
      · exact h ▸ List.mem_cons_self _ _
      · exact List.mem_cons_of_mem _ (ih.mp h)
    · intro h
      rcases List.mem_cons.mp h with h | h
      · exact Or.inl h.symm
      · exact Or.inr (ih.mpr h)

theorem startsWithPath_length_le (p q : FsPath) (h : startsWithPath p q = true) :
    p.length ≤ q.length := by
  induction p generalizing q with
  | nil => simp
  | cons a t ih =>
    cases q with
    | nil => simp [startsWithPath] at h
    | cons b u =>
      simp only [startsWithPath, Bool.and_eq_true] at h
      simpa using Nat.succ_le_succ (ih u h.2)

theorem startsWithPath_last_eq (r : FsPath) (a b : String) (q : FsPath)
    (ha : startsWithPath (r ++ [a]) q = true)
    (hb : startsWithPath (r ++ [b]) q = true) : a = b := by
  induction r generalizing q with
  | nil =>
    cases q with
    | nil => simp [startsWithPath] at ha
    | cons c u =>
      simp only [List.nil_append, startsWithPath, Bool.and_eq_true, beq_iff_eq] at ha hb
      exact ha.1.trans hb.1.symm
  | cons x t ih =>
    cases q with
    | nil => simp [startsWithPath] at ha
    | cons c u =>
      simp only [List.cons_append, startsWithPath, Bool.and_eq_true] at ha hb
      exact ih u ha.2 hb.2

theorem pathMem_rmtree_self (fs : FS) (d : FsPath) :
    pathMem (rmtree fs d) d = false := by
  by_contra h
  have hmem : d ∈ rmtree fs d :=
    (pathMem_iff _ _).mp (Bool.of_not_eq_false h)
  have := (List.mem_filter.mp hmem).2
  simp [startsWithPath_self] at this

/-- C5: `cleanup_session` is idempotent.  A second call on the same session
finds the directory already absent, takes the no-op branch (so it raises no
error: `shutil.rmtree` is guarded by the existence check), and leaves the
filesystem exactly as a single call does. -/
theorem cleanup_session_idempotent (output_root : FsPath) (fs : FS) (sid : String) :
    cleanup_session output_root (cleanup_session output_root fs sid) sid
      = cleanup_session output_root fs sid := by
  unfold cleanup_session
  by_cases h : pathMem fs (output_root ++ [sid]) = true
  · simp only [h, if_pos, pathMem_rmtree_self, Bool.false_eq_true, if_false]
  · simp only [Bool.not_eq_true] at h
    simp [h]

/-- C10: `cleanup_session sid` only removes entries inside the session's own
subdirectory `output_root / sid`: every entry inside any other session's
directory `output_root / sid'` survives the call, and the output root itself
is never removed. -/
theorem cleanup_session_frame (output_root : FsPath) (fs : FS) (sid sid' : String)
    (p : FsPath) (hne : sid' ≠ sid) :
    (p ∈ fs → startsWithPath (output_root ++ [sid']) p = true →
        p ∈ cleanup_session output_root fs sid)
    ∧ (output_root ∈ fs → output_root ∈ cleanup_session output_root fs sid) := by
  constructor
  · intro hp hunder
    unfold cleanup_session
    by_cases h : pathMem fs (output_root ++ [sid]) = true
    · simp only [h, if_pos]
      refine List.mem_filter.mpr ⟨hp, ?_⟩
      simp only [Bool.not_eq_true']
      by_contra hsw
      have hsw' : startsWithPath (output_root ++ [sid]) p = true :=
        Bool.of_not_eq_false hsw
      exact hne (startsWithPath_last_eq output_root sid' sid p hunder hsw')
    · simp only [Bool.not_eq_true] at h
      simpa [h] using hp
  · intro hr
    unfold cleanup_session
    by_cases h : pathMem fs (output_root ++ [sid]) = true
    · simp only [h, if_pos]
      refine List.mem_filter.mpr ⟨hr, ?_⟩
      simp only [Bool.not_eq_true']
      by_contra hsw
      have hsw' : startsWithPath (output_root ++ [sid]) output_root = true :=
        Bool.of_not_eq_false hsw
      have := startsWithPath_length_le _ _ hsw'
      simp [List.length_append] at this
    · simp only [Bool.not_eq_true] at h
      simpa [h] using hr

/-- Witness for C10 at a concrete filesystem with two sessions. -/
theorem cleanup_session_frame_witness :
    ["tmp_3d_service", "s2", "dress_sim.glb"]
      ∈ cleanup_session ["tmp_3d_service"]
          [["tmp_3d_service"], ["tmp_3d_service", "s1"],
           ["tmp_3d_service", "s1", "shirt_sim.glb"],
           ["tmp_3d_service", "s2"], ["tmp_3d_service", "s2", "dress_sim.glb"]] "s1"
    ∧ ["tmp_3d_service"]
      ∈ cleanup_session ["tmp_3d_service"]
          [["tmp_3d_service"], ["tmp_3d_service", "s1"],
           ["tmp_3d_service", "s1", "shirt_sim.glb"],
           ["tmp_3d_service", "s2"], ["tmp_3d_service", "s2", "dress_sim.glb"]] "s1" :=
  ⟨(cleanup_session_frame ["tmp_3d_service"] _ "s1" "s2" _ (by decide)).1
      (by decide) (by decide),
   (cleanup_session_frame ["tmp_3d_service"] _ "s1" "s2"
      ["tmp_3d_service", "s2", "dress_sim.glb"] (by decide)).2 (by decide)⟩

/-- Python exceptions relevant to the embedded code paths. -/
inductive PyExc where
  | http (status : Nat) (detail : String)
  | valueError (msg : String)
  | generic (msg : String)
deriving DecidableEq, Repr

/-- Python `str(e)` for the exceptions above.  Starlette's `HTTPException.__str__`
renders as `"{status_code}: {detail}"`; plain exceptions render their
message. -/
def pyStr : PyExc → String
  | .http s d => toString s ++ ": " ++ d
  | .valueError m => m
  | .generic m => m

/-- The `FileResponse` value built by the download endpoints. -/
structure FileResp where
  path : FsPath
  media_type : String
deriving DecidableEq, Repr

/-- The hard-coded output root of `GarmentTo3DService` (`"./tmp_3d_service"`,
garment_3d_service.py line 101 and pattern_data_sim.py line 64). -/
def tmp3dRoot : FsPath := ["tmp_3d_service"]

/-- One entry of `session_dir.rglob("*.glb")`: an entry strictly below
`dir` whose final component ends in the extension. -/
def rglobMatch (dir : FsPath) (ext : String) (p : FsPath) : Bool :=
  startsWithPath dir p && decide (dir.length < p.length)
    && ((p.getLast?).getD "").endsWith ext

/-- Body of the `try` block of `download_glb`
(garment_3d_service.py, lines 98-113): glob the session directory for
`*.glb`; with no match raise `HTTPException(404, "GLB file not found")`,
otherwise return the first match as a `FileResponse`. -/
def download_glb_try (fs : FS) (session_id : String) : Except PyExc FileResp :=
  let session_dir := tmp3dRoot ++ [session_id]
  match fs.filter (rglobMatch session_dir ".glb") with
  | [] => .error (.http 404 "GLB file not found")
  | f :: _ => .ok { path := f, media_type := "model/gltf-binary" }

/-- The whole `download_glb` handler (garment_3d_service.py, lines 88-117):
the `except Exception` clause catches every exception raised in the `try`
block — including the handler's own `HTTPException(404, ...)` — and
re-raises `HTTPException(500, str(e))`, so that is what the caller
receives.  (The traceback text logged alongside is not modelled.) -/
def download_glb (fs : FS) (session_id : String) : Except PyExc FileResp :=
  match download_glb_try fs session_id with
  | .ok r => .ok r
  | .error e => .error (.http 500 (pyStr e))

/-- A concrete filesystem with two completed 3D sessions. -/
def fs3d : FS :=
  [["tmp_3d_service"], ["tmp_3d_service", "s1"],
   ["tmp_3d_service", "s1", "Configured_design_sim.glb"],
   ["tmp_3d_service", "s2"], ["tmp_3d_service", "s2", "Configured_design_sim.glb"]]

/-- C4 (code bug): downloading after cleaning up the same session does NOT
deliver the 404 `NotFoundError` to the caller.  The handler raises
`HTTPException(404, "GLB file not found")`, but its own blanket
`except Exception` catches that exception and re-raises it as a generic
internal error `HTTPException(500, "404: GLB file not found")` — the 500 is
what the caller receives, contradicting the handler's explicitly raised
status and the documented contract. -/
theorem download_after_cleanup_is_500 :
    download_glb (cleanup_session tmp3dRoot fs3d "s1") "s1"
      = .error (.http 500 "404: GLB file not found") := by rfl


/-- Opaque stand-in for a YAML/JSON scalar value: the orchestration code
stores and forwards these values but never inspects them. -/
abbrev PyVal := Nat

/-- First-match association-list lookup (`dict` access by key). -/
def alookup {κ ν : Type} [DecidableEq κ] (k : κ) : List (κ × ν) → Option ν
  | [] => none
  | kv :: rest => if kv.1 = k then some kv.2 else alookup k rest

/-- A body-measurement profile (`BodyParameters`,
assets/bodies/body_params.py — the class itself is not under src/). -/
structure BodyParameters where
  params : List (String × PyVal)
deriving DecidableEq, Repr

/-- The measurement names present in a profile. -/
def BodyParameters.keys (b : BodyParameters) : List String := b.params.map Prod.fst

/-- Reading one measurement from a profile. -/
def BodyParameters.get (b : BodyParameters) (k : String) : Option PyVal :=
  alookup k b.params

/-- Overwrite the value stored under one (existing) measurement name. -/
def setParam (ps : List (String × PyVal)) (k : String) (v : PyVal) :
    List (String × PyVal) :=
  ps.map (fun kv => if kv.1 = k then (kv.1, v) else kv)

/-- Modelled from the spec: `BodyParameters.load_from_dict`
(assets/bodies/body_params.py, not under src/).  Per spec §4.1 the resolver
"applies the default values first, then overwrites with every key present
in `overrides`; unknown keys are an input error". -/
def load_from_dict (b : BodyParameters) (overrides : List (String × PyVal)) :
    Except PyExc BodyParameters :=
  if overrides.all (fun kv => decide (kv.1 ∈ b.keys)) then
    .ok ⟨overrides.foldl (fun ps kv => setParam ps kv.1 kv.2) b.params⟩
  else
    .error (.valueError "unknown body parameter")

/-- The body-parameter setup shared by `GarmentTo3DService.generate_3d`
(pattern_data_sim.py, lines 100-105) and `GarmentSVGService.generate_svg`
(api_garment_3d_service.py, lines 119-124):
`if body_params: body = BodyParameters(); body.load_from_dict(body_params)
else: body = self.default_body_params`.  A `None` or empty override map is
falsy, so it selects the shared default profile; the fresh `BodyParameters()`
is modelled (from the spec) as starting from the canonical default values. -/
def resolve_body (defaults : BodyParameters)
    (body_params : Option (List (String × PyVal))) : Except PyExc BodyParameters :=
  match body_params with
  | none => .ok defaults
  | some ov => if ov.isEmpty then .ok defaults else load_from_dict defaults ov

theorem alookup_setParam (ps : List (String × PyVal)) (k0 k : String) (v0 : PyVal) :
    alookup k (setParam ps k0 v0)
      = if k = k0 then (alookup k0 ps).map (fun _ => v0) else alookup k ps := by
  induction ps with
  | nil => by_cases h : k = k0 <;> simp [setParam, alookup, h]
  | cons kv rest ih =>
    by_cases hh0 : kv.1 = k0
    · by_cases hh : kv.1 = k
      · have hk : k = k0 := hh ▸ hh0
        simp [setParam, alookup, hh0, hh, hk]
      · have hk : ¬ k = k0 := fun e => hh (by rw [hh0, ← e])
        have hk' : ¬ k0 = k := fun e => hk e.symm
        simp only [setParam] at ih ⊢
        simp [alookup, hh0, hh, hk, hk', ih]
    · by_cases hh : kv.1 = k
      · have hk : ¬ k = k0 := fun e => hh0 (hh.trans e)
        simp [setParam, alookup, hh0, hh, hk]
      · simp only [setParam] at ih ⊢
        by_cases hk : k = k0
        · subst hk
          simp [alookup, hh0, hh, ih]
        · simp [alookup, hh0, hh, hk, ih]

theorem keys_setParam (ps : List (String × PyVal)) (k0 : String) (v0 : PyVal) :
    (setParam ps k0 v0).map Prod.fst = ps.map Prod.fst := by
  induction ps with
  | nil => rfl
  | cons kv rest ih =>
    simp only [setParam, List.map_cons] at ih ⊢
    rw [ih]
    by_cases hh : kv.1 = k0 <;> simp [hh]

theorem alookup_isSome_of_mem_keys {κ ν : Type} [DecidableEq κ]
    (ps : List (κ × ν)) (k : κ)
    (h : k ∈ ps.map Prod.fst) : (alookup k ps).isSome := by
  induction ps with
  | nil => simp at h
  | cons kv rest ih =>
    simp only [List.map_cons, List.mem_cons] at h
    by_cases hh : kv.1 = k
    · simp [alookup, hh]
    · rcases h with h | h
      · exact absurd h.symm hh
      · simpa [alookup, hh] using ih h

theorem alookup_eq_none_of_not_mem_keys {κ ν : Type} [DecidableEq κ]
    (ps : List (κ × ν)) (k : κ)
    (h : k ∉ ps.map Prod.fst) : alookup k ps = none := by
  induction ps with
  | nil => rfl
  | cons kv rest ih =>
    simp only [List.map_cons, List.mem_cons, not_or] at h
    have hh : ¬ kv.1 = k := fun e => h.1 e.symm
    simpa [alookup, hh] using ih h.2

theorem merge_fold_get (ov : List (String × PyVal)) (ps : List (String × PyVal))
    (k : String)
    (hcov : ∀ kv ∈ ov, kv.1 ∈ ps.map Prod.fst)
    (hnd : (ov.map Prod.fst).Nodup) :
    alookup k (ov.foldl (fun ps kv => setParam ps kv.1 kv.2) ps)
      = (alookup k ov).or (alookup k ps) := by
  induction ov generalizing ps with
  | nil => simp [alookup]
  | cons kv rest ih =>
    simp only [List.foldl_cons]
    have hkeys : (setParam ps kv.1 kv.2).map Prod.fst = ps.map Prod.fst :=
      keys_setParam ps kv.1 kv.2
    have hcov' : ∀ kv' ∈ rest, kv'.1 ∈ (setParam ps kv.1 kv.2).map Prod.fst := by
      intro kv' h'; rw [hkeys]; exact hcov kv' (List.mem_cons_of_mem _ h')
    have hknr : kv.1 ∉ rest.map Prod.fst := by
      intro hmem
      have : kv.1 ∈ List.map Prod.fst (kv :: rest) := by simp
      have hcons : (kv.1 :: rest.map Prod.fst).Nodup := by simpa using hnd
      exact (List.nodup_cons.mp hcons).1 hmem
    have hnd' : (rest.map Prod.fst).Nodup := by
      have hcons : (kv.1 :: rest.map Prod.fst).Nodup := by simpa using hnd
      exact (List.nodup_cons.mp hcons).2
    rw [ih (setParam ps kv.1 kv.2) hcov' hnd', alookup_setParam]
    by_cases hk : k = kv.1
    · have h1 : alookup kv.1 rest = none :=
        alookup_eq_none_of_not_mem_keys rest kv.1 hknr
      have h2 : (alookup kv.1 ps).isSome :=
        alookup_isSome_of_mem_keys ps kv.1 (hcov kv (List.mem_cons_self _ _))
      rcases Option.isSome_iff_exists.mp h2 with ⟨v, hv⟩
      simp [alookup, hk, h1, hv]
    · have hk' : ¬ kv.1 = k := fun e => hk e.symm
      cases hr : alookup k rest <;> simp [alookup, hk, hk', hr]

/-- C1: whenever the request supplies body-parameter overrides and the
resolver succeeds, the resulting Body Profile is the process-wide defaults
with every override key applied on top: a measurement named in the
overrides carries the override value, and every other measurement keeps its
default value. -/
theorem resolve_body_merges_overrides (defaults : BodyParameters)
    (ov : List (String × PyVal)) (b : BodyParameters) (k : String)
    (hnd : (ov.map Prod.fst).Nodup)
    (hok : resolve_body defaults (some ov) = .ok b) :
    b.get k = (alookup k ov).or (defaults.get k) := by
  simp only [resolve_body] at hok
  by_cases hemp : ov.isEmpty
  · rw [if_pos hemp] at hok
    cases ov with
    | cons kv rest => simp [List.isEmpty] at hemp
    | nil =>
      cases hok
      simp [alookup]
  · rw [if_neg hemp] at hok
    unfold load_from_dict at hok
    by_cases hall : ov.all (fun kv => decide (kv.1 ∈ defaults.keys)) = true
    · rw [if_pos hall] at hok
      cases hok
      have hcov : ∀ kv ∈ ov, kv.1 ∈ defaults.params.map Prod.fst := by
        intro kv hkv
        exact of_decide_eq_true (List.all_eq_true.mp hall kv hkv)
      exact merge_fold_get ov defaults.params k hcov hnd
    · rw [if_neg hall] at hok
      cases hok

/-- Witness for C1: defaults (height 170, waist 70) overridden by waist 80:
the overridden key takes the override value and the absent key keeps its
default. -/
theorem resolve_body_merges_overrides_witness :
    resolve_body ⟨[("height", 170), ("waist", 70)]⟩ (some [("waist", 80)])
        = .ok ⟨[("height", 170), ("waist", 80)]⟩
    ∧ BodyParameters.get ⟨[("height", 170), ("waist", 80)]⟩ "waist"
        = (alookup "waist" [("waist", 80)]).or
            (BodyParameters.get ⟨[("height", 170), ("waist", 70)]⟩ "waist")
    ∧ BodyParameters.get ⟨[("height", 170), ("waist", 80)]⟩ "height"
        = (alookup "height" [("waist", 80)]).or
            (BodyParameters.get ⟨[("height", 170), ("waist", 70)]⟩ "height") :=
  ⟨by rfl,
   resolve_body_merges_overrides ⟨[("height", 170), ("waist", 70)]⟩ [("waist", 80)]
     ⟨[("height", 170), ("waist", 80)]⟩ "waist" (by decide) (by rfl),
   resolve_body_merges_overrides ⟨[("height", 170), ("waist", 70)]⟩ [("waist", 80)]
     ⟨[("height", 170), ("waist", 80)]⟩ "height" (by decide) (by rfl)⟩

/-- Every nonempty initial segment of a path (the directory and its
ancestors, innermost last). -/
def ancestors (p : FsPath) : List FsPath :=
  (List.range p.length).map (fun n => p.take (n + 1))

/-- Embedding of `Path.mkdir(parents=True, exist_ok=True)`: create the directory and any
missing ancestor. -/
def mkdirP (fs : FS) (p : FsPath) : FS :=
  (ancestors p).foldl (fun acc q => if pathMem acc q then acc else acc ++ [q]) fs

/-- Embedding of `open(file, "w")` as far as existence is concerned: the file exists
afterwards. -/
def touchFile (fs : FS) (p : FsPath) : FS :=
  if pathMem fs p then fs else fs ++ [p]

/-- An opaque design-parameter dictionary (`design_params`): the
orchestration code forwards it to the external pattern compiler without
inspecting it. -/
abbrev DesignDict := List (String × PyVal)

/-- A raw pattern specification: its top-level entries, each entry's value
opaque (the `design` entry, when present, is itself a design-parameter
dictionary, which is what the fallback extracts). -/
abbrev PatternSpec := List (String × DesignDict)

/-- The tuple returned by the SVG generators:
(pattern folder, SVG file, PNG file, optional printable PDF). -/
structure SvgOut where
  folder : FsPath
  svg : FsPath
  png : FsPath
  pdf : Option FsPath
deriving DecidableEq, Repr

/-- Oracles for the external collaborators of the SVG service: the
parametric compiler+serializer (`MetaGarment(...).assembly().serialize`)
and the raw-specification loader+serializer (`VisPattern(...).serialize`).
Each either returns the pattern folder it produced or fails with the
exception message `str(e)` of the raised error. -/
structure SvgEnv where
  designFolder : DesignDict → Bool → Bool → Bool → Except String FsPath
  rawFolder : PatternSpec → Bool → Bool → Bool → Except String FsPath

/-- The hard-coded output root of `GarmentSVGService`
(`"./tmp_svg_service"`, api_garment_3d_service.py line 243). -/
def tmpSvgRoot : FsPath := ["tmp_svg_service"]

/-- Embedding of `GarmentSVGService._generate_svg_from_design_params`
(api_garment_3d_service.py, lines 138-175): run the parametric path with
pattern name `SVG_Pattern`; on success return the deterministically named
artifacts, on failure log and re-raise the original exception. -/
def generate_svg_from_design_params (env : SvgEnv) (design_params : DesignDict)
    (with_text view_ids with_printable : Bool) : Except PyExc SvgOut :=
  match env.designFolder design_params with_text view_ids with_printable with
  | .error emsg => .error (.generic emsg)
  | .ok folder =>
      .ok { folder := folder
            svg := folder ++ ["SVG_Pattern_pattern.svg"]
            png := folder ++ ["SVG_Pattern_pattern.png"]
            pdf := if with_printable
                   then some (folder ++ ["SVG_Pattern_print_pattern.pdf"])
                   else none }

/-- Embedding of `GarmentSVGService._generate_svg_from_pattern_spec`
(api_garment_3d_service.py, lines 177-228): try the raw-specification path
(pattern name `user_pattern_svg`); on any load/serialize failure, fall back
to the extracted `design` entry when the specification has one, otherwise
raise `Exception("Could not process pattern specification: " + str(e))`. -/
def generate_svg_from_pattern_spec (env : SvgEnv) (pattern_specification : PatternSpec)
    (with_text view_ids with_printable : Bool) : Except PyExc SvgOut :=
  match env.rawFolder pattern_specification with_text view_ids with_printable with
  | .ok folder =>
      .ok { folder := folder
            svg := folder ++ ["user_pattern_svg_pattern.svg"]
            png := folder ++ ["user_pattern_svg_pattern.png"]
            pdf := if with_printable
                   then some (folder ++ ["user_pattern_svg_print_pattern.pdf"])
                   else none }
  | .error emsg =>
      match alookup "design" pattern_specification with
      | some design_params =>
          generate_svg_from_design_params env design_params
            with_text view_ids with_printable
      | none =>
          .error (.generic ("Could not process pattern specification: " ++ emsg))

/-- Embedding of `GarmentSVGService.generate_svg` (api_garment_3d_service.py,
lines 90-136): validate that at least one input form is present
(`is None` checks), create the session directory, resolve the body profile,
then dispatch — the raw-specification path whenever `pattern_specification`
is not `None` (`design_params` is ignored in that case), the parametric
path otherwise.  The raw path first persists the specification verbatim as
`user_pattern_svg_specification.json` inside the session directory. -/
def svc_generate_svg (env : SvgEnv) (defaults : BodyParameters)
    (design_params : Option DesignDict) (pattern_specification : Option PatternSpec)
    (session_id : String) (body_params : Option (List (String × PyVal)))
    (with_text view_ids with_printable : Bool) (fs : FS) :
    Except PyExc SvgOut × FS :=
  match design_params, pattern_specification with
  | none, none =>
      (.error (.valueError
          "Either design_params or pattern_specification must be provided"), fs)
  | _, some ps =>
      let session_dir := tmpSvgRoot ++ [session_id]
      let fs1 := mkdirP fs session_dir
      match resolve_body defaults body_params with
      | .error e => (.error e, fs1)
      | .ok _body =>
          let fs2 := touchFile fs1 (session_dir ++ ["user_pattern_svg_specification.json"])
          (generate_svg_from_pattern_spec env ps with_text view_ids with_printable, fs2)
  | some d, none =>
      let session_dir := tmpSvgRoot ++ [session_id]
      let fs1 := mkdirP fs session_dir
      match resolve_body defaults body_params with
      | .error e => (.error e, fs1)
      | .ok _body =>
          (generate_svg_from_design_params env d with_text view_ids with_printable, fs1)

/-- The `GenerateSVGRequest` pydantic model (api_garment_3d_service.py,
lines 44-50), with its field defaults. -/
structure GenerateSVGRequest where
  pattern_specification : Option PatternSpec := none
  design_params : Option DesignDict := none
  body_params : Option (List (String × PyVal)) := none
  with_text : Bool := true
  view_ids : Bool := true
  with_printable : Bool := false

/-- The `GenerateSVGResponse` pydantic model (api_garment_3d_service.py,
lines 52-57). -/
structure GenerateSVGResponse where
  session_id : String
  svg_file_path : FsPath
  png_file_path : FsPath
  output_dir : FsPath
  printable_pdf_path : Option FsPath
deriving DecidableEq, Repr

/-- Python truthiness of an optional dictionary: `None` and the empty
dictionary are falsy. -/
def truthyDict {α : Type} : Option (List α) → Bool
  | none => false
  | some l => !l.isEmpty

/-- Body of the `try` block of the `/generate_svg` endpoint
(api_garment_3d_service.py, lines 386-424): reject with
`HTTPException(400, ...)` when neither input form is truthy — before any
session identifier is used or any directory is created — otherwise call the
service and wrap its output in a response. -/
def generate_svg_endpoint_try (env : SvgEnv) (defaults : BodyParameters)
    (req : GenerateSVGRequest) (session_id : String) (fs : FS) :
    Except PyExc GenerateSVGResponse × FS :=
  if !truthyDict req.pattern_specification && !truthyDict req.design_params then
    (.error (.http 400
        "Either pattern_specification or design_params must be provided"), fs)
  else
    match svc_generate_svg env defaults req.design_params req.pattern_specification
        session_id req.body_params req.with_text req.view_ids req.with_printable fs with
    | (.error e, fsOut) => (.error e, fsOut)
    | (.ok out, fsOut) =>
        (.ok { session_id := session_id
               svg_file_path := out.svg
               png_file_path := out.png
               output_dir := out.folder
               printable_pdf_path := out.pdf }, fsOut)

/-- The whole `/generate_svg` handler (api_garment_3d_service.py,
lines 376-428): its `except Exception` clause catches every exception
raised in the `try` block — including the handler's own
`HTTPException(400, ...)` — and re-raises
`HTTPException(500, "Error in SVG generation: " + str(e))`, so that is what
the caller receives.  (The traceback text appended to the detail is not
modelled.) -/
def generate_svg_endpoint (env : SvgEnv) (defaults : BodyParameters)
    (req : GenerateSVGRequest) (session_id : String) (fs : FS) :
    Except PyExc GenerateSVGResponse × FS :=
  match generate_svg_endpoint_try env defaults req session_id fs with
  | (.ok r, fsOut) => (.ok r, fsOut)
  | (.error e, fsOut) =>
      (.error (.http 500 ("Error in SVG generation: " ++ pyStr e)), fsOut)

/-- C6: whenever the raw-specification load/serialize step fails, the
fallback is attempted exactly when the specification contains an embedded
`design` entry: with the entry present the result is that of the parametric
path on the extracted Design Specification, and with it absent the error is
surfaced to the caller. -/
theorem pattern_spec_failure_fallback (env : SvgEnv) (ps : PatternSpec)
    (with_text view_ids with_printable : Bool) (emsg : String)
    (hfail : env.rawFolder ps with_text view_ids with_printable = .error emsg) :
    (∀ d, alookup "design" ps = some d →
        generate_svg_from_pattern_spec env ps with_text view_ids with_printable
          = generate_svg_from_design_params env d with_text view_ids with_printable)
    ∧ (alookup "design" ps = none →
        generate_svg_from_pattern_spec env ps with_text view_ids with_printable
          = .error (.generic ("Could not process pattern specification: " ++ emsg))) := by
  constructor
  · intro d hd
    unfold generate_svg_from_pattern_spec
    rw [hfail, hd]
  · intro hd
    unfold generate_svg_from_pattern_spec
    rw [hfail, hd]

/-- An environment whose raw-specification path always fails. -/
def envRawFail : SvgEnv :=
  { designFolder := fun _ _ _ _ => .ok ["tmp_svg_service", "sidX", "SVG_Pattern"]
    rawFolder := fun _ _ _ _ => .error "Invalid pattern specification" }

/-- Witness for C6: under a failing raw path, a specification carrying a
`design` entry is retried through the parametric path, and one without it
surfaces the wrapped error. -/
theorem pattern_spec_failure_fallback_witness :
    (generate_svg_from_pattern_spec envRawFail [("design", [("collar", 1)])]
        true true false
      = generate_svg_from_design_params envRawFail [("collar", 1)] true true false)
    ∧ (generate_svg_from_pattern_spec envRawFail [("panels", [("p", 1)])]
        true true false
      = .error (.generic
          "Could not process pattern specification: Invalid pattern specification")) :=
  ⟨(pattern_spec_failure_fallback envRawFail [("design", [("collar", 1)])]
      true true false "Invalid pattern specification" rfl).1 [("collar", 1)] rfl,
   (pattern_spec_failure_fallback envRawFail [("panels", [("p", 1)])]
      true true false "Invalid pattern specification" rfl).2 rfl⟩

/-- A default body profile standing in for `mean_all.yaml`. -/
def defaultsMean : BodyParameters := ⟨[("height", 170), ("waist", 70)]⟩

/-- An environment that is never consulted (every oracle fails). -/
def envUnused : SvgEnv :=
  { designFolder := fun _ _ _ _ => .error "unused"
    rawFolder := fun _ _ _ _ => .error "unused" }

/-- A request populating neither `pattern_specification` nor
`design_params` (both keep their `None` defaults). -/
def reqNeither : GenerateSVGRequest := {}

/-- A starting filesystem holding only the SVG service's output root. -/
def fsSvg0 : FS := [["tmp_svg_service"]]

/-- C7 (code bug): a request with neither input form creates no session —
the filesystem is returned unchanged, since the validation error is raised
before any directory is touched — but the caller does NOT receive the
input-error class: the handler's own `HTTPException(400, ...)` is caught by
its blanket `except Exception` and re-raised as the generic internal error
`HTTPException(500, "Error in SVG generation: 400: ...")`. -/
theorem generate_svg_neither_input_no_session_but_500 :
    generate_svg_endpoint envUnused defaultsMean reqNeither "sid0" fsSvg0
      = (.error (.http 500
          "Error in SVG generation: 400: Either pattern_specification or design_params must be provided"),
         fsSvg0) := by rfl

/-- C8 (amended): a request supplying both a Design Specification and a
(nonempty) Raw Pattern Specification is accepted, and is processed exactly
as if only the Raw Pattern Specification had been supplied: the
`design_params` field is ignored by the dispatch. -/
theorem both_inputs_processed_as_pattern_spec (env : SvgEnv)
    (defaults : BodyParameters) (ps : PatternSpec) (d : DesignDict)
    (bp : Option (List (String × PyVal))) (wt vi wp : Bool)
    (session_id : String) (fs : FS) (hps : ps ≠ []) :
    generate_svg_endpoint env defaults
        { pattern_specification := some ps, design_params := some d,
          body_params := bp, with_text := wt, view_ids := vi,
          with_printable := wp } session_id fs
      = generate_svg_endpoint env defaults
        { pattern_specification := some ps, design_params := none,
          body_params := bp, with_text := wt, view_ids := vi,
          with_printable := wp } session_id fs := by
  cases ps with
  | nil => exact absurd rfl hps
  | cons e t => rfl

/-- An environment whose raw-specification path succeeds. -/
def envRawOk : SvgEnv :=
  { designFolder := fun _ _ _ _ => .error "unused"
    rawFolder := fun _ _ _ _ => .ok ["tmp_svg_service", "sid1", "user_pattern_svg"] }

/-- A request supplying both input forms at once. -/
def reqBoth : GenerateSVGRequest :=
  { pattern_specification := some [("panels", [("p", 1)])]
    design_params := some [("collar", 1)] }

/-- C8 (counterexample): the claim says a request supplying both input
forms is rejected; in fact such a request is accepted and succeeds — the
endpoint returns a success response, produced by the raw-specification
path. -/
theorem both_inputs_accepted_counterexample :
    (generate_svg_endpoint envRawOk defaultsMean reqBoth "sid1" fsSvg0).1
      = .ok { session_id := "sid1"
              svg_file_path := ["tmp_svg_service", "sid1", "user_pattern_svg",
                                "user_pattern_svg_pattern.svg"]
              png_file_path := ["tmp_svg_service", "sid1", "user_pattern_svg",
                                "user_pattern_svg_pattern.png"]
              output_dir := ["tmp_svg_service", "sid1", "user_pattern_svg"]
              printable_pdf_path := none } := by rfl

/-- Witness for C8 (amended) at the concrete request supplying both forms. -/
theorem both_inputs_processed_as_pattern_spec_witness :
    generate_svg_endpoint envRawOk defaultsMean reqBoth "sid1" fsSvg0
      = generate_svg_endpoint envRawOk defaultsMean
          { pattern_specification := some [("panels", [("p", 1)])],
            design_params := none } "sid1" fsSvg0 :=
  both_inputs_processed_as_pattern_spec envRawOk defaultsMean
    [("panels", [("p", 1)])] [("collar", 1)] none true true false "sid1" fsSvg0
    (by decide)

/-- Processing state of one dataset item. -/
inductive ItemStatus where
  | pending
  | done
  | failed
deriving DecidableEq, Repr

/-- A dataset: items (by numeric id) with their current processing state. -/
abbrev Dataset := List (Nat × ItemStatus)

/-- The outcome of simulating one item, driven by an oracle saying whether
the external simulation succeeds on that item. -/
def attemptOutcome (oracle : Nat → Bool) (i : Nat) : ItemStatus :=
  if oracle i then .done else .failed

/-- Attempt every listed item once, recording each outcome. -/
def applyAttempts (oracle : Nat → Bool) (ids : List Nat) (ds : Dataset) : Dataset :=
  ds.map (fun p => if p.1 ∈ ids then (p.1, attemptOutcome oracle p.1) else p)

/-- The ids of items not yet processed. -/
def pendingIds (ds : Dataset) : List Nat :=
  (ds.filter (fun p => p.2 = ItemStatus.pending)).map Prod.fst

/-- The ids of items recorded as failed. -/
def failedIds (ds : Dataset) : List Nat :=
  (ds.filter (fun p => p.2 = ItemStatus.failed)).map Prod.fst

/-- A pass reports the dataset fully finished when no item is pending. -/
def allProcessed (ds : Dataset) : Bool := ds.all (fun p => !(p.2 = ItemStatus.pending))

/-- The ids the Running pass attempts: unprocessed items, optionally capped
to the minibatch size. -/
def batchIds (num_samples : Option Nat) (ds : Dataset) : List Nat :=
  match num_samples with
  | none => pendingIds ds
  | some n => (pendingIds ds).take n

/-- Modelled from the spec: `sim.batch_sim`
(pygarment.meshgen.datasim_utils, not under src/).  The Running pass
"iterates unprocessed dataset items (optionally capped to a minibatch
size), invoking the single-request pipeline per item", each exactly once,
and "reports whether the dataset is fully finished".  Returns the updated
dataset, the ids attempted in this pass, and the finished flag. -/
def batch_sim (oracle : Nat → Bool) (num_samples : Option Nat) (ds : Dataset) :
    Dataset × List Nat × Bool :=
  let ids := batchIds num_samples ds
  let dsOut := applyAttempts oracle ids ds
  (dsOut, ids, allProcessed dsOut)

/-- Modelled from the spec: `sim.resim_fails`
(pygarment.meshgen.datasim_utils, not under src/).  The Resim pass retries
every item marked failed exactly once — it "may process more items than
the configured minibatch size" — and reports whether the dataset is fully
finished. -/
def resim_fails (oracle : Nat → Bool) (ds : Dataset) : Dataset × List Nat × Bool :=
  let ids := failedIds ds
  let dsOut := applyAttempts oracle ids ds
  (dsOut, ids, allProcessed dsOut)

/-- The persisted Dataset Run State read by the driver: the value of the
`frozen` key when present, and the item states. -/
structure DatasetProps where
  frozen : Option Bool
  items : Dataset

/-- Embedding of `'frozen' in props and props['frozen']`
(pattern_data_sim.py, line 199). -/
def frozenFlag (props : DatasetProps) : Bool :=
  match props.frozen with
  | some b => b
  | none => false

/-- What one batch CLI invocation did. -/
structure RunResult where
  exitCode : Nat
  ranBatch : Bool
  ranResim : Bool
  batchFinished : Bool
  resimFinished : Bool
  attempts : List Nat
  finalItems : Dataset

/-- The `__main__` driver of pattern_data_sim.py (lines 198-242): if the
run state is frozen, warn and `sys.exit(0)` at once — no pass runs;
otherwise run the initial `batch_sim` pass, run `resim_fails` only when
that pass reported finished, and exit 0 when the last pass reported
finished, 1 otherwise.  `o1`/`o2` are the simulation-success oracles of the
two passes. -/
def datasim_main (o1 o2 : Nat → Bool) (minibatch : Option Nat)
    (props : DatasetProps) : RunResult :=
  if frozenFlag props then
    { exitCode := 0, ranBatch := false, ranResim := false,
      batchFinished := false, resimFinished := false,
      attempts := [], finalItems := props.items }
  else
    match batch_sim o1 minibatch props.items with
    | (ds1, t1, fin1) =>
      if fin1 then
        match resim_fails o2 ds1 with
        | (ds2, t2, fin2) =>
          { exitCode := if fin2 then 0 else 1, ranBatch := true, ranResim := true,
            batchFinished := true, resimFinished := fin2,
            attempts := t1 ++ t2, finalItems := ds2 }
      else
        { exitCode := 1, ranBatch := true, ranResim := false,
          batchFinished := false, resimFinished := false,
          attempts := t1, finalItems := ds1 }

/-- C2: an invocation on a frozen dataset processes zero items and returns
immediately, whatever the minibatch size: no attempt is made, neither the
initial pass nor the resim pass is entered, and the dataset is untouched. -/
theorem frozen_skips_processing (o1 o2 : Nat → Bool) (minibatch : Option Nat)
    (props : DatasetProps) (hf : frozenFlag props = true) :
    (datasim_main o1 o2 minibatch props).attempts = []
    ∧ (datasim_main o1 o2 minibatch props).ranBatch = false
    ∧ (datasim_main o1 o2 minibatch props).ranResim = false
    ∧ (datasim_main o1 o2 minibatch props).finalItems = props.items := by
  unfold datasim_main
  rw [if_pos hf]
  exact ⟨rfl, rfl, rfl, rfl⟩

/-- A frozen run state over a dataset that still has a pending item. -/
def frozenProps : DatasetProps :=
  { frozen := some true, items := [(0, ItemStatus.pending)] }

/-- Witness for C2 at a concrete frozen dataset and minibatch size 5. -/
theorem frozen_skips_processing_witness :
    (datasim_main (fun _ => true) (fun _ => true) (some 5) frozenProps).attempts = []
    ∧ (datasim_main (fun _ => true) (fun _ => true) (some 5) frozenProps).ranBatch = false
    ∧ (datasim_main (fun _ => true) (fun _ => true) (some 5) frozenProps).ranResim = false
    ∧ (datasim_main (fun _ => true) (fun _ => true) (some 5) frozenProps).finalItems
        = frozenProps.items :=
  frozen_skips_processing (fun _ => true) (fun _ => true) (some 5) frozenProps (by rfl)

/-- C3 (counterexample): a frozen dataset with unprocessed items exits with
code 0 — `sys.exit(0)` on the frozen branch — although the dataset is not
fully finished and the invocation was a skip; the claim demanded a non-zero
exit for a frozen skip and exit 0 only when fully finished. -/
theorem frozen_exits_zero_counterexample :
    (datasim_main (fun _ => true) (fun _ => true) none frozenProps).exitCode = 0
    ∧ allProcessed (datasim_main (fun _ => true) (fun _ => true) none
        frozenProps).finalItems = false
    ∧ (datasim_main (fun _ => true) (fun _ => true) none frozenProps).batchFinished
        = false := by
  exact ⟨rfl, rfl, rfl⟩

/-- C3 (amended): the exit code is 0 exactly when the invocation was a
frozen skip or both passes reported the dataset fully finished; a non-frozen
incomplete invocation exits 1. -/
theorem exit_code_zero_iff_finished_or_frozen (o1 o2 : Nat → Bool)
    (minibatch : Option Nat) (props : DatasetProps) :
    (datasim_main o1 o2 minibatch props).exitCode = 0
      ↔ (frozenFlag props = true
          ∨ ((datasim_main o1 o2 minibatch props).batchFinished = true
              ∧ (datasim_main o1 o2 minibatch props).resimFinished = true)) := by
  unfold datasim_main
  by_cases hf : frozenFlag props = true
  · simp [hf]
  · rw [if_neg hf]
    cases hb : batch_sim o1 minibatch props.items with
    | mk ds1 rest =>
      cases rest with
      | mk t1 fin1 =>
        cases fin1 with
        | false => simp [hf]
        | true =>
          cases hr : resim_fails o2 ds1 with
          | mk ds2 rest2 =>
            cases rest2 with
            | mk t2 fin2 =>
              cases fin2 with
              | false => simp [hf]
              | true => simp [hf]

theorem keys_applyAttempts (o : Nat → Bool) (ids : List Nat) (ds : Dataset) :
    (applyAttempts o ids ds).map Prod.fst = ds.map Prod.fst := by
  induction ds with
  | nil => rfl
  | cons p rest ih =>
    simp only [applyAttempts, List.map_cons] at ih ⊢
    rw [ih]
    by_cases hp : p.1 ∈ ids <;> simp [hp]

theorem alookup_applyAttempts (o : Nat → Bool) (ids : List Nat) (ds : Dataset)
    (i : Nat) :
    alookup i (applyAttempts o ids ds)
      = (alookup i ds).map
          (fun s => if i ∈ ids then attemptOutcome o i else s) := by
  induction ds with
  | nil => rfl
  | cons p rest ih =>
    simp only [applyAttempts, List.map_cons] at ih ⊢
    by_cases hk : p.1 = i
    · subst hk
      by_cases hp : p.1 ∈ ids <;> simp [alookup, hp]
    · by_cases hp : p.1 ∈ ids <;> simp [alookup, hk, hp, ih]

theorem mem_keys_of_mem_filter_ids (g : Nat × ItemStatus → Bool) (ds : Dataset)
    (i : Nat) (h : i ∈ (ds.filter g).map Prod.fst) : i ∈ ds.map Prod.fst := by
  rcases List.mem_map.mp h with ⟨p, hp, he⟩
  exact he ▸ List.mem_map_of_mem _ (List.mem_of_mem_filter hp)

theorem mem_keys_of_mem_batchIds (mb : Option Nat) (ds : Dataset) (i : Nat)
    (h : i ∈ batchIds mb ds) : i ∈ ds.map Prod.fst := by
  cases mb with
  | none => exact mem_keys_of_mem_filter_ids _ ds i h
  | some n =>
    exact mem_keys_of_mem_filter_ids _ ds i ((List.take_sublist _ _).subset h)

theorem mem_keys_of_mem_failedIds (ds : Dataset) (i : Nat)
    (h : i ∈ failedIds ds) : i ∈ ds.map Prod.fst :=
  mem_keys_of_mem_filter_ids _ ds i h

theorem nodup_filter_ids (g : Nat × ItemStatus → Bool) (ds : Dataset)
    (h : (ds.map Prod.fst).Nodup) : ((ds.filter g).map Prod.fst).Nodup :=
  List.Nodup.sublist ((List.filter_sublist ds).map Prod.fst) h

theorem nodup_batchIds (mb : Option Nat) (ds : Dataset)
    (h : (ds.map Prod.fst).Nodup) : (batchIds mb ds).Nodup := by
  cases mb with
  | none => exact nodup_filter_ids _ ds h
  | some n =>
    exact List.Nodup.sublist (List.take_sublist _ _) (nodup_filter_ids _ ds h)

theorem mem_failedIds_of_alookup (ds : Dataset) (i : Nat)
    (h : alookup i ds = some ItemStatus.failed) : i ∈ failedIds ds := by
  induction ds with
  | nil => cases h
  | cons p rest ih =>
    unfold failedIds at ih ⊢
    rw [List.filter_cons]
    by_cases hk : p.1 = i
    · simp only [alookup, if_pos hk] at h
      have h2 : p.2 = ItemStatus.failed := by injection h
      simp [h2, hk]
    · simp only [alookup, if_neg hk] at h
      have hmem := ih h
      by_cases hg : p.2 = ItemStatus.failed <;> simp [hg, hmem]

theorem alookup_applyAttempts_mem (o : Nat → Bool) (ids : List Nat) (ds : Dataset)
    (i : Nat) (hmem : i ∈ ids) (hk : i ∈ ds.map Prod.fst) :
    alookup i (applyAttempts o ids ds) = some (attemptOutcome o i) := by
  rcases Option.isSome_iff_exists.mp (alookup_isSome_of_mem_keys ds i hk) with ⟨v, hv⟩
  rw [alookup_applyAttempts, hv]
  simp [hmem]

theorem datasim_main_eq_finished (o1 o2 : Nat → Bool) (mb : Option Nat)
    (props : DatasetProps) (ds1 : Dataset) (t1 : List Nat)
    (hf : ¬ frozenFlag props = true)
    (hb : batch_sim o1 mb props.items = (ds1, t1, true)) :
    datasim_main o1 o2 mb props =
      { exitCode := if (resim_fails o2 ds1).2.2 then 0 else 1,
        ranBatch := true, ranResim := true, batchFinished := true,
        resimFinished := (resim_fails o2 ds1).2.2,
        attempts := t1 ++ (resim_fails o2 ds1).2.1,
        finalItems := (resim_fails o2 ds1).1 } := by
  unfold datasim_main
  rw [if_neg hf, hb]
  rfl

theorem datasim_main_eq_unfinished (o1 o2 : Nat → Bool) (mb : Option Nat)
    (props : DatasetProps) (ds1 : Dataset) (t1 : List Nat)
    (hf : ¬ frozenFlag props = true)
    (hb : batch_sim o1 mb props.items = (ds1, t1, false)) :
    datasim_main o1 o2 mb props =
      { exitCode := 1, ranBatch := true, ranResim := false,
        batchFinished := false, resimFinished := false,
        attempts := t1, finalItems := ds1 } := by
  unfold datasim_main
  rw [if_neg hf, hb]
  rfl

/-- C9: within one invocation the resim pass runs only after the initial
pass reported finished, no item is attempted more than twice (so retried
more than once), and an attempted item whose simulation fails in both
passes ends the invocation recorded as failed. -/
theorem resim_retries_at_most_once (o1 o2 : Nat → Bool) (minibatch : Option Nat)
    (props : DatasetProps) (hnd : (props.items.map Prod.fst).Nodup) :
    ((datasim_main o1 o2 minibatch props).ranResim = true
        → (datasim_main o1 o2 minibatch props).batchFinished = true)
    ∧ (∀ i, (datasim_main o1 o2 minibatch props).attempts.count i ≤ 2)
    ∧ (∀ i, o1 i = false → o2 i = false
        → i ∈ (datasim_main o1 o2 minibatch props).attempts
        → alookup i (datasim_main o1 o2 minibatch props).finalItems
            = some ItemStatus.failed) := by
  by_cases hf : frozenFlag props = true
  · have hmain : datasim_main o1 o2 minibatch props =
        { exitCode := 0, ranBatch := false, ranResim := false,
          batchFinished := false, resimFinished := false,
          attempts := [], finalItems := props.items } := by
      unfold datasim_main
      rw [if_pos hf]
    rw [hmain]
    refine ⟨fun h => by simp at h, fun i => by simp, fun i _ _ hmem => ?_⟩
    exact absurd hmem (List.not_mem_nil i)
  · have hbs : batch_sim o1 minibatch props.items
        = (applyAttempts o1 (batchIds minibatch props.items) props.items,
           batchIds minibatch props.items,
           allProcessed (applyAttempts o1 (batchIds minibatch props.items)
              props.items)) := rfl
    have hnd1 : (batchIds minibatch props.items).Nodup :=
      nodup_batchIds minibatch props.items hnd
    have hfail1 : ∀ i, o1 i = false → i ∈ batchIds minibatch props.items →
        alookup i (applyAttempts o1 (batchIds minibatch props.items) props.items)
          = some ItemStatus.failed := by
      intro i ho1 hi
      rw [alookup_applyAttempts_mem o1 _ _ _ hi
        (mem_keys_of_mem_batchIds _ _ _ hi)]
      simp [attemptOutcome, ho1]
    by_cases hfin : allProcessed
        (applyAttempts o1 (batchIds minibatch props.items) props.items) = true
    · rw [hfin] at hbs
      have hmain := datasim_main_eq_finished o1 o2 minibatch props _ _ hf hbs
      rw [hmain]
      have hr : resim_fails o2
          (applyAttempts o1 (batchIds minibatch props.items) props.items)
        = (applyAttempts o2
             (failedIds (applyAttempts o1 (batchIds minibatch props.items)
                props.items))
             (applyAttempts o1 (batchIds minibatch props.items) props.items),
           failedIds (applyAttempts o1 (batchIds minibatch props.items)
              props.items),
           allProcessed (applyAttempts o2
             (failedIds (applyAttempts o1 (batchIds minibatch props.items)
                props.items))
             (applyAttempts o1 (batchIds minibatch props.items) props.items))) := rfl
      rw [hr]
      dsimp only
      have hnd2 : (failedIds (applyAttempts o1 (batchIds minibatch props.items)
          props.items)).Nodup := by
        apply nodup_filter_ids
        rw [keys_applyAttempts]
        exact hnd
      refine ⟨fun _ => rfl, fun i => ?_, fun i ho1 ho2 hmem => ?_⟩
      · show ((batchIds minibatch props.items) ++ _).count i ≤ 2
        rw [List.count_append]
        have c1 := List.nodup_iff_count_le_one.mp hnd1 i
        have c2 := List.nodup_iff_count_le_one.mp hnd2 i
        omega
      · have hmem2 : i ∈ failedIds (applyAttempts o1
            (batchIds minibatch props.items) props.items) := by
          rcases List.mem_append.mp hmem with hi | hi
          · exact mem_failedIds_of_alookup _ _ (hfail1 i ho1 hi)
          · exact hi
        show alookup i (applyAttempts o2 _ _) = some ItemStatus.failed
        rw [alookup_applyAttempts_mem o2 _ _ _ hmem2
          (mem_keys_of_mem_failedIds _ _ hmem2)]
        simp [attemptOutcome, ho2]
    · rw [Bool.not_eq_true] at hfin
      rw [hfin] at hbs
      have hmain := datasim_main_eq_unfinished o1 o2 minibatch props _ _ hf hbs
      rw [hmain]
      refine ⟨fun h => by simp at h, fun i => ?_, fun i ho1 ho2 hmem => ?_⟩
      · have c1 := List.nodup_iff_count_le_one.mp hnd1 i
        show (batchIds minibatch props.items).count i ≤ 2
        omega
      · exact hfail1 i ho1 hmem

/-- An unfrozen two-item dataset whose item 0 always fails. -/
def propsTwo : DatasetProps :=
  { frozen := none,
    items := [(0, ItemStatus.pending), (1, ItemStatus.pending)] }

/-- Witness for C9: with item 0 failing in both passes and item 1
succeeding, the invocation attempts item 0 exactly twice and records it as
failed. -/
theorem resim_retries_at_most_once_witness :
    ((datasim_main (fun i => i ≠ 0) (fun i => i ≠ 0) none propsTwo).ranResim = true
        → (datasim_main (fun i => i ≠ 0) (fun i => i ≠ 0) none propsTwo).batchFinished
            = true)
    ∧ ((datasim_main (fun i => i ≠ 0) (fun i => i ≠ 0) none propsTwo).attempts.count 0
        ≤ 2)
    ∧ (alookup 0 (datasim_main (fun i => i ≠ 0) (fun i => i ≠ 0) none
        propsTwo).finalItems = some ItemStatus.failed) := by
  have h := resim_retries_at_most_once (fun i => i ≠ 0) (fun i => i ≠ 0) none
    propsTwo (by decide)
  exact ⟨h.1, h.2.1 0, h.2.2 0 (by decide) (by decide) (by decide)⟩
